import Mathlib

/-!
Verification of the python-micro-services core against its specification.

Shallow embedding notes:
* Redis sorted sets of ports (`zs:h:<host>:p`, member = score) are modelled as
  `Finset ℕ`; `zadd` of an already-present member is a no-op, matching redis.
* Redis string values that the registry JSON-encodes on write and decodes on
  read (`functions`, `port`, `pid`, `start_time`, `alive`) are modelled at the
  typed level: the store holds the typed value and the client-side decode is
  the identity on it, with `functions` turning from a JSON array (list) into
  an unordered set (`Finset`).  The JSON text codec itself is an external
  library and is out of scope.
* Wall-clock reads, sockets and threads are modelled by explicit parameters
  (timestamps, attempt outcomes, event traces).
-/

/-! ## Service registry: port allocation (redis_service_registry.py, next_available_port) -/

def STARTING_PORT : ℕ := 9000

def PORT_BATCH_SIZE : ℕ := 100

/-- The batch of 100 consecutive ports seeded by `next_available_port`:
`xrange(start, start + PORT_BATCH_SIZE)`. -/
def portBatch (start : ℕ) : Finset ℕ := Finset.Ico start (start + PORT_BATCH_SIZE)

/-- The seeding phase of `next_available_port`: if the zset is empty, add the
batch starting at `STARTING_PORT`; if it has exactly one element, add the batch
starting one above that element (`zrange(key, 0, 0)[0] + 1`). -/
def seedPool (pool : Finset ℕ) : Finset ℕ :=
  if pool.card = 0 then portBatch STARTING_PORT
  else if pool.card = 1 then
    match pool.min with
    | some p => pool ∪ portBatch (p + 1)
    | none => pool
  else pool

/-- Model of `RedisServiceRegistry.next_available_port`: seed if needed, then remove and
return the smallest member of the host port zset. -/
def nextAvailablePort (pool : Finset ℕ) : Option ℕ × Finset ℕ :=
  let pool1 := seedPool pool
  match pool1.min with
  | some m => (some m, pool1.erase m)
  | none => (none, pool1)

/-- The pool left after `k` successive allocations starting from `pool`. -/
def allocIter : ℕ → Finset ℕ → Finset ℕ
  | 0, pool => pool
  | k + 1, pool => (nextAvailablePort (allocIter k pool)).2

/-- The port returned by the `k`-th allocation (1-indexed) starting from `pool`. -/
def kthAllocResult (k : ℕ) (pool : Finset ℕ) : Option ℕ :=
  (nextAvailablePort (allocIter (k - 1) pool)).1

/-! ## Service registry: directory state, register/deregister/discover
(redis_service_registry.py) -/

/-- One instance's hash map `hm:s:<name>:g:<guid>` as written by
`register_service` (see `Service._set_config`).  JSON-encoded fields are held
at the typed level. -/
structure StoredConfig where
  name : String
  env : String
  guid : String
  pid : Int
  host : String
  port : ℕ
  socket_type : String
  connect_method : String
  functions : List String
  start_time : Int
  alive : Bool
deriving DecidableEq

/-- The redis directory: the services set `se:s`, the per-service guid sets
`se:s:<name>:g`, the instance hash maps, and the per-host port zsets. -/
structure Directory where
  services : Finset String
  guids : String → Finset String
  instances : String → String → Option StoredConfig
  ports : String → Finset ℕ

/-- Model of `RedisServiceRegistry.register_service`: add the name to the services set,
the guid to the service's guid set, and write the instance map. -/
def registerService (d : Directory) (c : StoredConfig) : Directory :=
  { services := insert c.name d.services
    guids := fun n => if n = c.name then insert c.guid (d.guids c.name) else d.guids n
    instances := fun n g =>
      if n = c.name && g = c.guid then some c else d.instances n g
    ports := d.ports }

/-- Model of `RedisServiceRegistry.deregister_service`: read the cards and the stored
port, delete the instance map, remove the guid, clean up the guid set and the
services set when the last instance/service leaves, and return the port to the
host pool. -/
def deregisterService (d : Directory) (name guid host : String) : Directory :=
  let services_card := d.services.card
  let service_guids_card := (d.guids name).card
  let port : Option ℕ := (d.instances name guid).map (fun c => c.port)
  let d1 : Directory :=
    { d with
      instances := fun n g =>
        if n = name && g = guid then none else d.instances n g
      guids := fun n => if n = name then (d.guids name).erase guid else d.guids n }
  let d2 : Directory :=
    if service_guids_card = 1 then
      { d1 with
        guids := fun n => if n = name then ∅ else d1.guids n
        services :=
          if services_card = 1 then ∅ else d1.services.erase name }
    else d1
  match port with
  | some p => { d2 with ports := fun h => if h = host then insert p (d2.ports h) else d2.ports h }
  | none => d2

/-- Model of `RedisServiceRegistry.client_socket_type`: the client-side counterpart of a
stored socket type; `none` models `UnknownSocketTypeError`. -/
def clientSocketType (socket_type : String) : Option String :=
  if socket_type = "REP" then some "REQ"
  else if socket_type = "REQ" then some "REP"
  else if socket_type = "PUB" then some "SUB"
  else if socket_type = "SUB" then some "PUB"
  else if socket_type = "PUSH" then some "PULL"
  else if socket_type = "PULL" then some "PUSH"
  else none

/-- A config as returned to a client by `discover_service`: socket type and
connect method flipped, JSON fields decoded, `functions` an unordered set. -/
structure ClientConfig where
  name : String
  env : String
  guid : String
  pid : Int
  host : String
  port : ℕ
  socket_type : String
  connect_method : String
  functions : Finset String
  start_time : Int
  alive : Bool
deriving DecidableEq

/-- The per-config rewrite at the end of `discover_service`. -/
def transformConfig (c : StoredConfig) : Option ClientConfig :=
  (clientSocketType c.socket_type).map fun st =>
    { name := c.name
      env := c.env
      guid := c.guid
      pid := c.pid
      host := c.host
      port := c.port
      socket_type := st
      connect_method := if c.connect_method = "bind" then "connect" else "bind"
      functions := c.functions.toFinset
      start_time := c.start_time
      alive := c.alive }

inductive DiscoverError where
  /-- Raised as `ServiceNotAvailableError` -/
  | serviceNotAvailable
  /-- Calling `random.randint(0, -1)` on an empty guid list raises `ValueError` -/
  | valueError
  /-- An `hgetall` of a missing instance key yields an empty dict; indexing it raises `KeyError` -/
  | keyError
  /-- Raised as `UnknownSocketTypeError` from `client_socket_type` -/
  | unknownSocketType
deriving DecidableEq

/-- Fetch and rewrite the configs of the sampled guids. -/
def discoverConfigs (d : Directory) (name : String) :
    List String → Except DiscoverError (List ClientConfig)
  | [] => .ok []
  | g :: gs =>
    match d.instances name g with
    | none => .error .keyError
    | some c =>
      match transformConfig c with
      | none => .error .unknownSocketType
      | some cc => (discoverConfigs d name gs).map (fun l => cc :: l)

/-- Model of `RedisServiceRegistry.discover_service`.  The random sample drawn from the
guid set is passed in as `sample`; `validSample` below states the contract
`random.sample`/`smembers` gives it. -/
def discoverService (d : Directory) (name : String) (sample : List String) :
    Except DiscoverError (List ClientConfig) :=
  if name ∈ d.services then
    if d.guids name = ∅ then .error .valueError
    else discoverConfigs d name sample
  else .error .serviceNotAvailable

/-- What `discover_service` guarantees about the guids it samples: a
duplicate-free choice from the guid set, of size `num` when more than `num`
instances exist, and an enumeration of all instances otherwise. -/
def validSample (d : Directory) (name : String) (num : ℕ) (sample : List String) : Prop :=
  sample.Nodup ∧ (∀ g ∈ sample, g ∈ d.guids name) ∧
    (num < (d.guids name).card → sample.length = num) ∧
    ((d.guids name).card ≤ num → ∀ g, g ∈ sample ↔ g ∈ d.guids name)

/-! ## Service runtime: dispatch-loop statistics (service.py, Service._run)

`current_timestamp` returns integer microseconds; the response-time delta is a
nonnegative integer in practice.  Times are embedded in `ℚ` so that the float
average arithmetic is exact. -/

structure RunStats where
  num_messages : ℕ
  num_success : ℕ
  num_error : ℕ
  avg_response_time : ℚ
  min_response_time : ℚ
  max_response_time : ℚ
  last_response_time : ℚ
deriving DecidableEq

/-- The stats dict as initialized in `Service._set_config`. -/
def initRunStats : RunStats :=
  { num_messages := 0, num_success := 0, num_error := 0
    avg_response_time := 0, min_response_time := 0
    max_response_time := 0, last_response_time := 0 }

/-- The statistics updates of one iteration of `Service._run`: increment
`num_messages`, increment `num_success` or `num_error` depending on whether the
handler threw, then fold the response time `t` into last/max/min/avg. -/
def processMessage (st : RunStats) (ok : Bool) (t : ℚ) : RunStats :=
  let n := st.num_messages + 1
  { num_messages := n
    num_success := if ok then st.num_success + 1 else st.num_success
    num_error := if ok then st.num_error else st.num_error + 1
    last_response_time := t
    max_response_time := max st.max_response_time t
    min_response_time :=
      if st.min_response_time = 0 then t else min st.min_response_time t
    avg_response_time := (t + ((n : ℚ) - 1) * st.avg_response_time) / (n : ℚ) }

/-- The stats after the dispatch loop has processed the given messages
(success flag and response time of each), starting from a fresh service. -/
def runMessages (msgs : List (Bool × ℚ)) : RunStats :=
  msgs.foldl (fun st m => processMessage st m.1 m.2) initRunStats

/-! ## Service client (client.py, ServiceClient) -/

/-- The fields of `ServiceClient` that `shutdown` touches.  `hasHeartbeatThread`
is `self._heartbeat_thread is not None`, fixed at construction by
`start_heartbeat_thread`. -/
structure ClientState where
  alive : Bool
  shutdown_time : Option ℕ
  hasHeartbeatThread : Bool
  stopEventSet : Bool
  socketOpen : Bool
deriving DecidableEq

/-- A `ServiceClient` right after `__init__`. -/
def initClient (start_heartbeat_thread : Bool) : ClientState :=
  { alive := true, shutdown_time := none
    hasHeartbeatThread := start_heartbeat_thread
    stopEventSet := false, socketOpen := true }

/-- Model of `ServiceClient.shutdown`, stamping `shutdown_time := now`. -/
def clientShutdown (now : ℕ) (s : ClientState) : ClientState :=
  if s.hasHeartbeatThread = false then s
  else if s.shutdown_time ≠ none then s
  else
    { s with alive := false, stopEventSet := true, socketOpen := false
             shutdown_time := some now }

/-- Outcome of one send/recv attempt inside `ServiceClient.request`, i.e. what
the socket does on the `k`-th try. -/
inductive Outcome where
  | reply (s : String)
  | timeout
  | zmqError
  | otherError
deriving DecidableEq

/-- Externally visible actions of `ServiceClient.request`, in order. -/
inductive Event where
  | send
  | sockClose
  | sockOpen
  /-- A `time.sleep(ms / 1000.0)` call -/
  | wait (ms : ℕ)
  | shutdownCall
deriving DecidableEq

/-- What `request` ends with. -/
inductive RequestResult where
  | ok (s : String)
  /-- Raised as `ServiceFunctionNotAvailableError` from inside the loop -/
  | funcNotAvailable
  /-- the recorded `ServiceClientTimeoutError` re-raised after the loop -/
  | timeoutError
  /-- the recorded `ServiceClientError` re-raised after the loop -/
  | clientError
  /-- the final `ServiceClientError('Should never get here')` -/
  | neverGetHere
deriving DecidableEq

/-- The error slot recorded across loop iterations. -/
inductive RecErr where
  | timeoutErr
  | clientErr
deriving DecidableEq

/-- Raising the recorded error after the loop exits (or `neverGetHere` when no
error was recorded). -/
def exitResult : Option RecErr → RequestResult
  | some .timeoutErr => .timeoutError
  | some .clientErr => .clientError
  | none => .neverGetHere

/-- The sleep/reopen step at the top of each loop iteration: on a truthy
`sleep_duration` the client sleeps and opens a fresh socket
(`_setup_socket(reuse=False)`); on `None` or `0` it does neither. -/
def sleepStep : Option ℕ → Bool → List Event × Bool
  | none, sock => ([], sock)
  | some d, sock => if d = 0 then ([], sock) else ([.wait d, .sockOpen], true)

/-- The retry loop of `ServiceClient.request`.  `fuel = max_tries - try_num`
counts the remaining loop iterations; `try_num` indexes `net`, the outcome of
each attempt; `sleep_duration` and `sock` (socket non-None) carry the loop
state.  On a falsy `sleep_duration` the socket is not re-opened, and a send on
a `None` socket raises `AttributeError`, which the generic `except` turns into
a recorded `ServiceClientError` and a `break`. -/
def requestAux (net : ℕ → Outcome) (alive avail : Bool) (sbr : ℕ) :
    ℕ → ℕ → Option ℕ → Bool → Option RecErr → List Event × RequestResult
  | 0, _, _, _, error => ([.shutdownCall], exitResult error)
  | fuel + 1, try_num, sleep_duration, sock, error =>
    if alive then
      if avail then
        let pre : List Event × Bool := sleepStep sleep_duration sock
        if pre.2 then
          match net try_num with
          | .reply s => (pre.1 ++ [.send], .ok s)
          | .timeout =>
            let rest := requestAux net alive avail sbr fuel (try_num + 1)
              (some (2 ^ try_num * sbr)) false (some .timeoutErr)
            (pre.1 ++ [.send, .sockClose] ++ rest.1, rest.2)
          | .zmqError => (pre.1 ++ [.send, .shutdownCall], .clientError)
          | .otherError => (pre.1 ++ [.send, .shutdownCall], .clientError)
        else
          (pre.1 ++ [.shutdownCall], .clientError)
      else ([], .funcNotAvailable)
    else ([.shutdownCall], exitResult error)

/-- Model of `ServiceClient.request(function_name, msg, timeout, max_tries,
sleep_before_retry)` on a client whose config advertises `functions`:
the trace of socket/sleep/shutdown actions and the final result. -/
def requestModel (net : ℕ → Outcome) (alive : Bool) (functions : List String)
    (function_name : String) (sbr max_tries : ℕ) : List Event × RequestResult :=
  requestAux net alive (decide (function_name ∈ functions)) sbr
    max_tries 0 none true none

/-- Number of `send_multipart` calls in a trace. -/
def sendCount (tr : List Event) : ℕ := tr.count Event.send

/-- The expected suffix of the all-timeouts trace, starting at the retry state
entered after the attempt numbered `k - 1` timed out (so the recorded sleep is
`2 ^ (k - 1) * sbr`), with `fuel` loop iterations left. -/
def retryTrace (sbr : ℕ) : ℕ → ℕ → List Event
  | 0, _ => [.shutdownCall]
  | fuel + 1, k =>
    .wait (2 ^ (k - 1) * sbr) :: .sockOpen :: .send :: .sockClose ::
      retryTrace sbr fuel (k + 1)

/-! ## Resource pool (resourcepool.py)

The pool's FIFO queue is a `List α` (front = next to be dequeued).  A handle's
`good_to_use` probe is `gtu : Option Bool`: `none` when the resource has no
such attribute, otherwise the probe's (side-effect free) answer. -/

/-- Model of `Resource.release`.  `hasPool` is `self._pool is not None`.  Returns the
new `hasPool` flag and the pool queue; `.error ()` is the `AttributeError`
raised by `None.release(...)` when the pool pointer was already nulled. -/
def resourceRelease {α : Type} (gtu : Option Bool) (hasPool : Bool)
    (pool : List α) (r : α) : Except Unit (Bool × List α) :=
  let shouldReturn := match gtu with | some b => b | none => true
  if shouldReturn then
    if hasPool then .ok (false, pool ++ [r])
    else .error ()
  else .ok (false, pool)

/-- Model of `Resource.__del__`: release only when the pool pointer is still set, and
swallow any error. -/
def resourceDel {α : Type} (gtu : Option Bool) (hasPool : Bool)
    (pool : List α) (r : α) : Bool × List α :=
  if hasPool then
    match resourceRelease gtu hasPool pool r with
    | .ok st => st
    | .error _ => (hasPool, pool)
  else (hasPool, pool)

/-! ## Method caller (service_method_caller.py) -/

/-- Steps taken by `ResourcePool.acquire`: the `empty()` check at the top of
each loop iteration, and the dequeue `get(True, timeout)` which is the only
step that may block (up to `timeout`, when given). -/
inductive AcqEvent where
  | emptyCheck
  | blockingGet (timeout : Option ℕ)
deriving DecidableEq

/-- Model of `ResourcePool.acquire(timeout)`: raise `Queue.Empty` as soon as the queue
is empty at the check, otherwise dequeue and probe `good_to_use`, silently
dropping dead resources and looping. -/
def poolAcquire {α : Type} (gtu : α → Option Bool) (timeout : Option ℕ) :
    List α → List AcqEvent × Except Unit (α × List α)
  | [] => ([.emptyCheck], .error ())
  | r :: rest =>
    match gtu r with
    | none => ([.emptyCheck, .blockingGet timeout], .ok (r, rest))
    | some true => ([.emptyCheck, .blockingGet timeout], .ok (r, rest))
    | some false =>
      let l := poolAcquire gtu timeout rest
      (.emptyCheck :: .blockingGet timeout :: l.1, l.2)

/-- The constant `RESOURCE_ACQUIRING_TIMEOUT` (seconds). -/
def RESOURCE_ACQUIRING_TIMEOUT : ℕ := 2

inductive MethodCallError where
  | unknownService
  | clientResourceNotAvailable
deriving DecidableEq

/-- The dispatch and acquisition part of `ServiceMethodCaller.__call__`:
unknown services fail with `UnknownServiceError`; otherwise a client resource
is acquired with the 2-second timeout and `Queue.Empty` is turned into
`ClientResourceNotAvailableError`.  On success the acquired client and the
remaining queue are returned (the forwarded `client.request` call is out of
scope of this model). -/
def serviceMethodCall {α : Type} (managed : Bool) (gtu : α → Option Bool)
    (queue : List α) : List AcqEvent × Except MethodCallError (α × List α) :=
  if managed then
    match poolAcquire gtu (some RESOURCE_ACQUIRING_TIMEOUT) queue with
    | (evs, .error ()) => (evs, .error .clientResourceNotAvailable)
    | (evs, .ok (r, rest)) => (evs, .ok (r, rest))
  else ([], .error .unknownService)

/-! ## Built-in handlers: description and healthcheck
(service_message_handler.py)

The service's `stats` dict is modelled as an association list so that the
in-place key insertions of `HealthCheckHandler.handle` are visible.  Crucially,
`d['stats'] = self._service.stats` aliases the service's own dict, so the
handler's writes land in the service state. -/

/-- A value in the stats dict (counters/times are numbers; the degraded memory
probes are the string `"?"`). -/
inductive SVal where
  | num (n : Int)
  | str (s : String)
deriving DecidableEq

/-- Python dict assignment `d[k] = v`: overwrite in place, or append. -/
def dictSet (d : List (String × SVal)) (k : String) (v : SVal) :
    List (String × SVal) :=
  if (d.lookup k).isSome then
    d.map (fun p => if p.1 = k then (k, v) else p)
  else d ++ [(k, v)]

/-- The stats dict as initialized in `Service._set_config`. -/
def initStatsDict : List (String × SVal) :=
  [("num_messages", .num 0), ("num_success", .num 0), ("num_error", .num 0),
   ("avg_response_time", .num 0), ("min_response_time", .num 0),
   ("max_response_time", .num 0), ("last_response_time", .num 0)]

/-- The fields of a `Service` that the description/healthcheck handlers read. -/
structure ServiceState where
  name : String
  env : String
  version : String
  pid : Int
  guid : String
  host : String
  port : ℕ
  socket_type : String
  connect_method : String
  functions : List String
  start_time : Int
  function_deque : List String
  stats : List (String × SVal)
deriving DecidableEq

/-- The dict built by `DescriptionHandler.handle` (and, with the two extra
fields, by `HealthCheckHandler.handle`). -/
structure ReplyDoc where
  name : String
  env : String
  version : String
  pid : Int
  guid : String
  host : String
  port : ℕ
  socket_type : String
  connect_method : String
  functions : List String
  start_time : Int
  function_deck : List String
  stats : List (String × SVal)
  start_datetime : Option String
  cmdline : Option (List String)
deriving DecidableEq

/-- Model of `DescriptionHandler.handle`: build the identity+stats document.  The
`stats` entry is (a reference to) the service's stats dict; nothing is written
through it, so the service state is unchanged. -/
def descriptionHandle (s : ServiceState) : ReplyDoc :=
  { name := s.name, env := s.env, version := s.version, pid := s.pid
    guid := s.guid, host := s.host, port := s.port
    socket_type := s.socket_type, connect_method := s.connect_method
    functions := s.functions, start_time := s.start_time
    function_deck := s.function_deque, stats := s.stats
    start_datetime := none, cmdline := none }

/-- The OS values sampled by `HealthCheckHandler.handle` via psutil. -/
structure OsSample where
  cpu_percent : SVal
  vms : SVal
  rss : SVal
  memory_percent : SVal

/-- Model of `HealthCheckHandler.handle`: build the document with `start_datetime` and
`cmdline`, then write the four OS sample keys into `d['stats']` — which is the
service's own stats dict, so the service state mutates along with the reply. -/
def healthcheckHandle (s : ServiceState) (os : OsSample)
    (start_datetime : String) (cmdline : List String) :
    ReplyDoc × ServiceState :=
  let stats1 := dictSet s.stats "cpu_percent" os.cpu_percent
  let stats2 := dictSet stats1 "vms" os.vms
  let stats3 := dictSet stats2 "rss" os.rss
  let stats4 := dictSet stats3 "memory_percent" os.memory_percent
  ({ name := s.name, env := s.env, version := s.version, pid := s.pid
     guid := s.guid, host := s.host, port := s.port
     socket_type := s.socket_type, connect_method := s.connect_method
     functions := s.functions, start_time := s.start_time
     function_deck := s.function_deque, stats := stats4
     start_datetime := some start_datetime, cmdline := some cmdline },
   { s with stats := stats4 })

/-- A concrete stored config used to instantiate the registry theorems. -/
def exampleStored : StoredConfig :=
  { name := "svc", env := "dev", guid := "g1", pid := 12, host := "h"
    port := 9000, socket_type := "REP", connect_method := "bind"
    functions := ["heartbeat", "stop"], start_time := 5, alive := true }

/-- A concrete one-service, one-instance directory. -/
def exampleDirectory : Directory :=
  { services := {"svc"}
    guids := fun n => if n = "svc" then {"g1"} else ∅
    instances := fun n g =>
      if n = "svc" && g = "g1" then some exampleStored else none
    ports := fun _ => ∅ }

/-- The empty directory. -/
def emptyDirectory : Directory :=
  { services := ∅, guids := fun _ => ∅, instances := fun _ _ => none
    ports := fun _ => ∅ }

/-- The empty directory with port 9000 free on every host. -/
def exampleDirectoryWithPort : Directory :=
  { services := ∅, guids := fun _ => ∅, instances := fun _ _ => none
    ports := fun _ => {9000} }

/-- A concrete service state with fresh stats. -/
def exampleService : ServiceState :=
  { name := "svc", env := "dev", version := "1", pid := 12, guid := "g1"
    host := "h", port := 9000, socket_type := "REP", connect_method := "bind"
    functions := ["heartbeat"], start_time := 5, function_deque := []
    stats := initStatsDict }

/-- A concrete psutil sample. -/
def exampleOsSample : OsSample :=
  { cpu_percent := .num 3, vms := .num 100, rss := .num 50
    memory_percent := .num 1 }

/-! # Theorems -/

/-! ## C1: port allocation -/

lemma Ico_min_eq (a b : ℕ) (h : a < b) : (Finset.Ico a b).min = some a := by
  apply le_antisymm
  · exact Finset.min_le (Finset.mem_Ico.mpr ⟨le_refl a, h⟩)
  · exact Finset.le_min fun x hx => WithTop.coe_le_coe.mpr (Finset.mem_Ico.mp hx).1

lemma Ico_erase_min (a b : ℕ) : (Finset.Ico a b).erase a = Finset.Ico (a + 1) b := by
  rw [Finset.Ico_erase_left, ← Nat.Ico_succ_left]

lemma nextAvailablePort_eq (pool : Finset ℕ) (m : ℕ)
    (h : (seedPool pool).min = some m) :
    nextAvailablePort pool = (some m, (seedPool pool).erase m) := by
  have hdef : nextAvailablePort pool =
      (match (seedPool pool).min with
       | some m => (some m, (seedPool pool).erase m)
       | none => (none, seedPool pool)) := rfl
  rw [hdef, h]

lemma seedPool_empty : seedPool ∅ = Finset.Ico 9000 9100 := by
  simp [seedPool, portBatch, STARTING_PORT, PORT_BATCH_SIZE]

lemma nextAvailablePort_empty :
    nextAvailablePort ∅ = (some 9000, Finset.Ico 9001 9100) := by
  rw [nextAvailablePort_eq ∅ 9000, seedPool_empty, Ico_erase_min]
  rw [seedPool_empty, Ico_min_eq]
  norm_num

lemma seedPool_singleton (p : ℕ) : seedPool {p} = Finset.Ico p (p + 101) := by
  unfold seedPool
  rw [Finset.card_singleton]
  norm_num [Finset.min_singleton, portBatch, PORT_BATCH_SIZE]
  rw [← Finset.insert_eq, show p + 1 + 100 = p + 101 by omega]
  exact Nat.Ico_insert_succ_left (by omega)

lemma nextAvailablePort_singleton (p : ℕ) :
    nextAvailablePort {p} = (some p, Finset.Ico (p + 1) (p + 101)) := by
  rw [nextAvailablePort_eq {p} p, seedPool_singleton, Ico_erase_min]
  rw [seedPool_singleton, Ico_min_eq]
  omega

lemma seedPool_of_two_le (pool : Finset ℕ) (h : 2 ≤ pool.card) :
    seedPool pool = pool := by
  unfold seedPool
  have h0 : ¬ pool.card = 0 := by omega
  have h1 : ¬ pool.card = 1 := by omega
  simp [h0, h1]

lemma nextAvailablePort_of_two_le (pool : Finset ℕ) (m : ℕ) (h : 2 ≤ pool.card)
    (hm : pool.min = some m) :
    nextAvailablePort pool = (some m, pool.erase m) := by
  rw [nextAvailablePort_eq pool m]
  · rw [seedPool_of_two_le pool h]
  · rw [seedPool_of_two_le pool h]
    exact hm

lemma nextAvailablePort_Ico (a b : ℕ) (h : a + 2 ≤ b) :
    nextAvailablePort (Finset.Ico a b) = (some a, Finset.Ico (a + 1) b) := by
  rw [← Ico_erase_min]
  apply nextAvailablePort_of_two_le
  · rw [Nat.card_Ico]
    omega
  · exact Ico_min_eq a b (by omega)

lemma allocIter_step (k : ℕ) (pool : Finset ℕ) :
    allocIter (k + 1) pool = (nextAvailablePort (allocIter k pool)).2 := rfl

lemma allocIter_Ico : ∀ k : ℕ, 1 ≤ k → k ≤ 99 →
    allocIter k ∅ = Finset.Ico (9000 + k) 9100 := by
  intro k
  induction k with
  | zero => omega
  | succ n ih =>
    intro _ h99
    rcases Nat.eq_zero_or_pos n with hn | hn
    · subst hn
      rw [allocIter_step, show allocIter 0 ∅ = ∅ from rfl, nextAvailablePort_empty]
    · rw [allocIter_step, ih hn (by omega),
        nextAvailablePort_Ico (9000 + n) 9100 (by omega)]
      rfl

lemma allocIter_99 : allocIter 99 ∅ = {9099} := by
  rw [allocIter_Ico 99 (by norm_num) (by norm_num),
    show (9000 : ℕ) + 99 = 9099 from rfl,
    show (9100 : ℕ) = 9099 + 1 from rfl]
  exact Nat.Ico_succ_singleton 9099

lemma allocIter_100 : allocIter 100 ∅ = Finset.Ico 9100 9200 := by
  rw [allocIter_step, allocIter_99, nextAvailablePort_singleton]

/-- C1: `next_available_port` removes and returns the smallest port of the
host pool, after seeding `9000..9099` on an empty pool and appending
`p+1..p+100` on a one-element pool `{p}`; from an empty pool the `k`-th
allocation (1-indexed, `k ≤ 100`) returns `8999 + k`, and the 101st returns
`9100`. -/
theorem next_available_port_spec :
    nextAvailablePort ∅ = (some STARTING_PORT, Finset.Ico 9001 9100) ∧
    (∀ p : ℕ, nextAvailablePort {p} = (some p, Finset.Ico (p + 1) (p + 101))) ∧
    (∀ pool : Finset ℕ, ∀ m : ℕ, 2 ≤ pool.card → pool.min = some m →
      nextAvailablePort pool = (some m, pool.erase m)) ∧
    (∀ k : ℕ, 1 ≤ k → k ≤ 100 → kthAllocResult k ∅ = some (8999 + k)) ∧
    kthAllocResult 101 ∅ = some 9100 := by
  refine ⟨nextAvailablePort_empty, nextAvailablePort_singleton,
    nextAvailablePort_of_two_le, ?_, ?_⟩
  · intro k h1 h100
    unfold kthAllocResult
    rcases Nat.lt_or_ge k 2 with hk | hk
    · have : k = 1 := by omega
      subst this
      rw [show (1 : ℕ) - 1 = 0 from rfl, show allocIter 0 ∅ = ∅ from rfl,
        nextAvailablePort_empty]
    · rcases Nat.lt_or_ge k 100 with hk99 | hk100
      · rw [allocIter_Ico (k - 1) (by omega) (by omega),
          nextAvailablePort_Ico (9000 + (k - 1)) 9100 (by omega)]
        simp only []
        congr 1
        omega
      · have : k = 100 := by omega
        subst this
        rw [show (100 : ℕ) - 1 = 99 from rfl, allocIter_99,
          nextAvailablePort_singleton]
  · unfold kthAllocResult
    rw [show (101 : ℕ) - 1 = 100 from rfl, allocIter_100,
      nextAvailablePort_Ico 9100 9200 (by omega)]

/-- Witness for C1: a two-element pool has its minimum removed and returned,
and the 100th allocation from an empty pool yields port 9099. -/
theorem next_available_port_spec_witness :
    (2 ≤ ({4, 9} : Finset ℕ).card ∧ ({4, 9} : Finset ℕ).min = some 4 ∧
      nextAvailablePort {4, 9} = (some 4, ({4, 9} : Finset ℕ).erase 4)) ∧
    (1 ≤ 100 ∧ 100 ≤ 100 ∧ kthAllocResult 100 ∅ = some 9099) := by
  refine ⟨⟨by decide, by decide,
    next_available_port_spec.2.2.1 {4, 9} 4 (by decide) (by decide)⟩,
    ⟨by norm_num, by norm_num, ?_⟩⟩
  have h := next_available_port_spec.2.2.2.1 100 (by norm_num) (by norm_num)
  simpa using h

/-! ## C2: dispatch-loop statistics -/

lemma runMessages_concat (msgs : List (Bool × ℚ)) (m : Bool × ℚ) :
    runMessages (msgs ++ [m]) = processMessage (runMessages msgs) m.1 m.2 := by
  simp [runMessages, List.foldl_append]

lemma runMessages_count (msgs : List (Bool × ℚ)) :
    (runMessages msgs).num_messages = msgs.length ∧
    (runMessages msgs).num_messages =
      (runMessages msgs).num_success + (runMessages msgs).num_error := by
  induction msgs using List.reverseRecOn with
  | nil => simp [runMessages, initRunStats]
  | append_singleton ms m ih =>
    rcases ih with ⟨h1, h2⟩
    rcases m with ⟨b, t⟩
    cases b <;>
      simp [runMessages_concat, processMessage, h1, h2] <;> omega

lemma processMessage_first (b : Bool) (t : ℚ) :
    (processMessage initRunStats b t).min_response_time = t ∧
    (processMessage initRunStats b t).avg_response_time = t ∧
    (processMessage initRunStats b t).max_response_time = max 0 t := by
  refine ⟨by simp [processMessage, initRunStats], ?_, by simp [processMessage, initRunStats]⟩
  simp [processMessage, initRunStats]

lemma runMessages_inv (msgs : List (Bool × ℚ)) (hpos : ∀ m ∈ msgs, 0 < m.2)
    (hne : msgs ≠ []) :
    0 < (runMessages msgs).min_response_time ∧
    (runMessages msgs).min_response_time ≤ (runMessages msgs).avg_response_time ∧
    (runMessages msgs).avg_response_time ≤ (runMessages msgs).max_response_time ∧
    (runMessages msgs).avg_response_time =
      (msgs.map Prod.snd).sum / (msgs.length : ℚ) := by
  induction msgs using List.reverseRecOn with
  | nil => exact absurd rfl hne
  | append_singleton ms m ih =>
    rcases m with ⟨b, t⟩
    have ht : 0 < t := hpos (b, t) (by simp)
    rcases List.eq_nil_or_concat ms with hms | _
    · subst hms
      simp only [List.nil_append]
      have hst : runMessages [(b, t)] = processMessage initRunStats b t := by
        simp [runMessages]
      rcases processMessage_first b t with ⟨h1, h2, h3⟩
      rw [hst, h1, h2, h3, max_eq_right ht.le]
      refine ⟨ht, le_refl t, le_refl t, ?_⟩
      norm_num
    · have hne' : ms ≠ [] := by
        rintro rfl
        simp at *
      have hpos' : ∀ x ∈ ms, 0 < x.2 := fun x hx => hpos x (by simp [hx])
      rcases ih hpos' hne' with ⟨hmin_pos, hmin_avg, havg_max, havg⟩
      have hlen : (runMessages ms).num_messages = ms.length :=
        (runMessages_count ms).1
      set st := runMessages ms with hstdef
      have hlen_pos : 0 < ms.length := List.length_pos.mpr hne'
      have hlenQ : (0 : ℚ) < (ms.length : ℚ) := by exact_mod_cast hlen_pos
      have hstep : runMessages (ms ++ [(b, t)]) = processMessage st b t :=
        runMessages_concat ms (b, t)
      rw [hstep]
      have hS : (ms.length : ℚ) * st.avg_response_time = (ms.map Prod.snd).sum := by
        rw [havg, mul_div_cancel₀ _ (ne_of_gt hlenQ)]
      have hmin' : (processMessage st b t).min_response_time =
          min st.min_response_time t := by
        simp [processMessage, ne_of_gt hmin_pos]
      have hmax' : (processMessage st b t).max_response_time =
          max st.max_response_time t := by
        simp [processMessage]
      have hnpos : (0 : ℚ) < (ms.length : ℚ) + 1 := by positivity
      have havg' : (processMessage st b t).avg_response_time =
          ((ms.map Prod.snd).sum + t) / ((ms.length : ℚ) + 1) := by
        simp only [processMessage]
        push_cast [hlen]
        rw [show ((ms.length : ℚ) + 1 - 1) = (ms.length : ℚ) by ring, hS,
          add_comm t]
      refine ⟨?_, ?_, ?_, ?_⟩
      · rw [hmin']
        exact lt_min hmin_pos ht
      · rw [hmin', havg', le_div_iff₀ hnpos]
        have h1 : min st.min_response_time t * (ms.length : ℚ) ≤
            (ms.map Prod.snd).sum := by
          calc min st.min_response_time t * (ms.length : ℚ)
              ≤ st.avg_response_time * (ms.length : ℚ) := by
                apply mul_le_mul_of_nonneg_right _ hlenQ.le
                exact le_trans (min_le_left _ _) hmin_avg
            _ = (ms.map Prod.snd).sum := by rw [mul_comm, hS]
        have h2 : min st.min_response_time t ≤ t := min_le_right _ _
        nlinarith
      · rw [hmax', havg', div_le_iff₀ hnpos]
        have h1 : (ms.map Prod.snd).sum ≤
            max st.max_response_time t * (ms.length : ℚ) := by
          calc (ms.map Prod.snd).sum = st.avg_response_time * (ms.length : ℚ) := by
                rw [mul_comm, hS]
            _ ≤ max st.max_response_time t * (ms.length : ℚ) := by
                apply mul_le_mul_of_nonneg_right _ hlenQ.le
                exact le_trans havg_max (le_max_left _ _)
        have h2 : t ≤ max st.max_response_time t := le_max_right _ _
        nlinarith
      · rw [havg']
        simp

/-- C2 as stated is false on the code: a zero-valued first sample leaves
`min_response_time = 0`, which the next update treats as "unset", so after the
samples `0, 10` the service reports `min_response_time = 10` while
`avg_response_time = 5`. -/
theorem stats_invariants_counterexample :
    ¬ ((runMessages [(true, 0), (true, 10)]).min_response_time ≤
        (runMessages [(true, 0), (true, 10)]).avg_response_time) := by
  have h : runMessages [(true, 0), (true, 10)] =
      processMessage (processMessage initRunStats true 0) true 10 := by
    simp [runMessages]
  rw [h]
  simp [processMessage, initRunStats]

/-- C2 (amended): provided every response-time sample is positive — the code
treats a zero `min_response_time` as "not yet set", so a zero-valued sample
breaks the ordering, see `stats_invariants_counterexample` — after each
message processed by the dispatch loop `num_messages = num_success +
num_error`; once at least one message has been processed,
`min_response_time ≤ avg_response_time ≤ max_response_time` with
`avg_response_time` the arithmetic mean of all samples so far; the first
sample sets `min_response_time`, and `last_response_time` is always the most
recent sample. -/
theorem stats_invariants :
    (∀ msgs : List (Bool × ℚ), (runMessages msgs).num_messages =
      (runMessages msgs).num_success + (runMessages msgs).num_error) ∧
    (∀ msgs : List (Bool × ℚ), (∀ m ∈ msgs, 0 < m.2) → msgs ≠ [] →
      (runMessages msgs).min_response_time ≤ (runMessages msgs).avg_response_time ∧
      (runMessages msgs).avg_response_time ≤ (runMessages msgs).max_response_time ∧
      (runMessages msgs).avg_response_time =
        (msgs.map Prod.snd).sum / (msgs.length : ℚ)) ∧
    (∀ b : Bool, ∀ t : ℚ, (processMessage initRunStats b t).min_response_time = t) ∧
    (∀ st : RunStats, ∀ b : Bool, ∀ t : ℚ,
      (processMessage st b t).last_response_time = t) := by
  refine ⟨fun msgs => (runMessages_count msgs).2, ?_, ?_, ?_⟩
  · intro msgs hpos hne
    rcases runMessages_inv msgs hpos hne with ⟨_, h1, h2, h3⟩
    exact ⟨h1, h2, h3⟩
  · intro b t
    exact (processMessage_first b t).1
  · intro st b t
    simp [processMessage]

/-- Witness for C2: two positive samples `4` and `6` give
`min = 4 ≤ avg = 5 ≤ max = 6`. -/
theorem stats_invariants_witness :
    ((∀ m ∈ [(true, (4 : ℚ)), (false, 6)], 0 < m.2) ∧
      [(true, (4 : ℚ)), (false, 6)] ≠ []) ∧
    ((runMessages [(true, (4 : ℚ)), (false, 6)]).min_response_time ≤
        (runMessages [(true, (4 : ℚ)), (false, 6)]).avg_response_time ∧
      (runMessages [(true, (4 : ℚ)), (false, 6)]).avg_response_time ≤
        (runMessages [(true, (4 : ℚ)), (false, 6)]).max_response_time ∧
      (runMessages [(true, (4 : ℚ)), (false, 6)]).avg_response_time =
        ([(true, (4 : ℚ)), (false, 6)].map Prod.snd).sum /
          (([(true, (4 : ℚ)), (false, 6)].length : ℚ))) :=
  ⟨⟨by norm_num, by simp⟩,
    stats_invariants.2.1 [(true, (4 : ℚ)), (false, 6)] (by norm_num) (by simp)⟩

/-! ## C3: client shutdown -/

/-- C3 as stated is false on the code: for a client constructed without a
heartbeat thread (`start_heartbeat_thread=False`, as `ServiceClientResource`
does), `shutdown()` returns at the `self._heartbeat_thread is None` guard, so
`alive` stays `true` and `shutdown_time` stays `None`. -/
theorem client_shutdown_counterexample :
    ¬ ((clientShutdown 5 (initClient false)).alive = false) ∧
    (clientShutdown 5 (initClient false)).shutdown_time = none := by
  constructor
  · decide
  · decide

/-- C3 (amended): for a not-yet-shut-down client constructed with a heartbeat
thread, `shutdown()` leaves `alive = false` and a non-null `shutdown_time`;
for a client constructed without one (as the method caller's
`ServiceClientResource` does), `shutdown()` is a complete no-op, leaving
`alive = true` and `shutdown_time = None`; in all cases a second call to
`shutdown()` returns without changing any state. -/
theorem client_shutdown_spec :
    (∀ s : ClientState, ∀ now : ℕ, s.hasHeartbeatThread = true →
      s.shutdown_time = none →
      (clientShutdown now s).alive = false ∧
        (clientShutdown now s).shutdown_time ≠ none) ∧
    (∀ s : ClientState, ∀ now : ℕ, s.hasHeartbeatThread = false →
      clientShutdown now s = s) ∧
    (∀ s : ClientState, ∀ now now2 : ℕ,
      clientShutdown now2 (clientShutdown now s) = clientShutdown now s) := by
  refine ⟨?_, ?_, ?_⟩
  · intro s now hhb hsd
    unfold clientShutdown
    rw [hhb]
    simp [hsd]
  · intro s now hhb
    unfold clientShutdown
    rw [hhb]
    simp
  · intro s now now2
    by_cases hhb : s.hasHeartbeatThread = false
    · have h1 : clientShutdown now s = s := by
        unfold clientShutdown
        rw [hhb]
        simp
      have h2 : clientShutdown now2 s = s := by
        unfold clientShutdown
        rw [hhb]
        simp
      rw [h1, h2]
    · have hhb2 : s.hasHeartbeatThread = true := by
        revert hhb
        cases s.hasHeartbeatThread <;> simp
      by_cases hsd : s.shutdown_time = none
      · have h1 : clientShutdown now s =
            { s with alive := false, stopEventSet := true, socketOpen := false
                     shutdown_time := some now } := by
          unfold clientShutdown
          rw [hhb2]
          simp [hsd]
        rw [h1]
        unfold clientShutdown
        simp [hhb2]
      · have h1 : clientShutdown now s = s := by
          unfold clientShutdown
          rw [hhb2]
          simp [hsd]
        have h2 : clientShutdown now2 s = s := by
          unfold clientShutdown
          rw [hhb2]
          simp [hsd]
        rw [h1, h2]

/-- Witness for C3: a fresh heartbeat-owning client shut down at time 7 ends
not alive with a stamped shutdown time. -/
theorem client_shutdown_spec_witness :
    ((initClient true).hasHeartbeatThread = true ∧
      (initClient true).shutdown_time = none) ∧
    ((clientShutdown 7 (initClient true)).alive = false ∧
      (clientShutdown 7 (initClient true)).shutdown_time ≠ none) :=
  ⟨⟨rfl, rfl⟩, client_shutdown_spec.1 (initClient true) 7 rfl rfl⟩

/-! ## C4 and C9: client request retry loop -/

lemma sleepStep_no_send (sd : Option ℕ) (sock : Bool) :
    sendCount (sleepStep sd sock).1 = 0 := by
  cases sd with
  | none => rfl
  | some d =>
    by_cases hd : d = 0
    · simp [sleepStep, hd, sendCount]
    · simp [sleepStep, hd, sendCount]

lemma requestAux_send_bound (net : ℕ → Outcome) (alive avail : Bool) (sbr : ℕ) :
    ∀ fuel try_num : ℕ, ∀ sd : Option ℕ, ∀ sock : Bool, ∀ err : Option RecErr,
      sendCount (requestAux net alive avail sbr fuel try_num sd sock err).1 ≤ fuel := by
  intro fuel
  induction fuel with
  | zero =>
    intro try_num sd sock err
    simp [requestAux, sendCount]
  | succ n ih =>
    intro try_num sd sock err
    unfold requestAux
    cases alive with
    | false => simp [sendCount]
    | true =>
      cases avail with
      | false => simp [sendCount]
      | true =>
        simp only [if_true]
        by_cases hpre : (sleepStep sd sock).2
        · rw [if_pos hpre]
          have hns := sleepStep_no_send sd sock
          simp only [sendCount] at hns
          cases hnet : net try_num with
          | reply s =>
            simp [sendCount, List.count_append, hns]
          | timeout =>
            have hrec := ih (try_num + 1) (some (2 ^ try_num * sbr)) false
              (some RecErr.timeoutErr)
            simp only [sendCount, List.count_append] at *
            simp [hns]
            omega
          | zmqError =>
            simp [sendCount, List.count_append, hns]
          | otherError =>
            simp [sendCount, List.count_append, hns]
        · rw [if_neg hpre]
          have hns := sleepStep_no_send sd sock
          simp only [sendCount] at hns
          simp [sendCount, List.count_append, hns]

lemma requestAux_allTimeout (sbr : ℕ) (hsbr : 1 ≤ sbr) :
    ∀ fuel k : ℕ,
      requestAux (fun _ => Outcome.timeout) true true sbr fuel (k + 1)
          (some (2 ^ k * sbr)) false (some RecErr.timeoutErr) =
        (retryTrace sbr fuel (k + 1), RequestResult.timeoutError) := by
  intro fuel
  induction fuel with
  | zero =>
    intro k
    rfl
  | succ n ih =>
    intro k
    have hd : ¬ (2 ^ k * sbr = 0) := by positivity
    unfold requestAux
    simp only [if_true]
    have hpre : sleepStep (some (2 ^ k * sbr)) false =
        ([Event.wait (2 ^ k * sbr), Event.sockOpen], true) := by
      simp [sleepStep, hd]
    rw [hpre]
    simp only [if_true]
    rw [ih (k + 1)]
    rfl

/-- C4 as stated is false on the code when `sleep_before_retry = 0`: the
scheduled wait `2 ^ 0 * 0 = 0` is falsy, so after the first timeout the next
iteration neither sleeps nor re-opens the closed socket; the send then hits a
`None` socket, the resulting `AttributeError` is recorded as a generic
`ServiceClientError` and the loop breaks — no re-open happens and the raised
error is not the `ServiceClientTimeoutError` the claim requires. -/
theorem request_retry_counterexample :
    requestModel (fun _ => Outcome.timeout) true ["f"] "f" 0 2 =
      ([Event.send, Event.sockClose, Event.shutdownCall],
        RequestResult.clientError) ∧
    (requestModel (fun _ => Outcome.timeout) true ["f"] "f" 0 2).2 ≠
      RequestResult.timeoutError ∧
    Event.sockOpen ∉ (requestModel (fun _ => Outcome.timeout) true ["f"] "f" 0 2).1 := by
  refine ⟨by decide, by decide, by decide⟩

/-- C4 (amended): for `request` on an alive client advertising the function,
with `max_tries ≥ 1` and `sleep_before_retry ≥ 1` (with `sleep_before_retry =
0` the zero scheduled wait is falsy and the retry crashes into a generic
`ServiceClientError`, see `request_retry_counterexample`): at most `max_tries`
sends happen, exactly one when `max_tries = 1`; and when every attempt times
out the trace is exactly send, close, then for each retry `k ≥ 1` a wait of
`2^(k-1) * sleep_before_retry` ms, a re-open, a send and a close, ending with
the `shutdown` call, and the recorded `ServiceClientTimeoutError` is raised. -/
theorem request_retry_spec :
    (∀ net : ℕ → Outcome, ∀ alive : Bool, ∀ functions : List String,
      ∀ f : String, ∀ sbr mt : ℕ,
      sendCount (requestModel net alive functions f sbr mt).1 ≤ mt) ∧
    (∀ net : ℕ → Outcome, ∀ functions : List String, ∀ f : String, ∀ sbr : ℕ,
      f ∈ functions →
      sendCount (requestModel net true functions f sbr 1).1 = 1) ∧
    (∀ functions : List String, ∀ f : String, ∀ sbr mt : ℕ,
      f ∈ functions → 1 ≤ sbr → 1 ≤ mt →
      requestModel (fun _ => Outcome.timeout) true functions f sbr mt =
        (Event.send :: Event.sockClose :: retryTrace sbr (mt - 1) 1,
          RequestResult.timeoutError)) := by
  refine ⟨?_, ?_, ?_⟩
  · intro net alive functions f sbr mt
    exact requestAux_send_bound net alive _ sbr mt 0 none true none
  · intro net functions f sbr hf
    have hav : decide (f ∈ functions) = true := by simp [hf]
    unfold requestModel
    rw [hav]
    cases hnet : net 0 with
    | reply s => simp [requestAux, sleepStep, sendCount, hnet]
    | timeout => simp [requestAux, sleepStep, sendCount, hnet]
    | zmqError => simp [requestAux, sleepStep, sendCount, hnet]
    | otherError => simp [requestAux, sleepStep, sendCount, hnet]
  · intro functions f sbr mt hf hsbr hmt
    obtain ⟨m, rfl⟩ : ∃ m, mt = m + 1 := ⟨mt - 1, by omega⟩
    have hav : decide (f ∈ functions) = true := by simp [hf]
    unfold requestModel
    rw [hav]
    unfold requestAux
    simp only [if_true]
    have hpre : sleepStep none true = ([], true) := rfl
    rw [hpre]
    simp only [if_true]
    rw [requestAux_allTimeout sbr hsbr m 0]
    rfl

/-- Witness for C4: two tries against a never-replying service with a 3 ms
base backoff: send, close, wait 3 ms, re-open, send, close, shutdown, and the
timeout error is raised. -/
theorem request_retry_spec_witness :
    ("hb" ∈ ["hb"] ∧ 1 ≤ 3 ∧ 1 ≤ 2) ∧
    requestModel (fun _ => Outcome.timeout) true ["hb"] "hb" 3 2 =
      (Event.send :: Event.sockClose :: retryTrace 3 1 1,
        RequestResult.timeoutError) :=
  ⟨⟨by decide, by norm_num, by norm_num⟩,
    request_retry_spec.2.2 ["hb"] "hb" 3 2 (by decide) (by norm_num) (by norm_num)⟩

/-- C9: on an alive client, requesting a function name the client's config
does not advertise raises `ServiceFunctionNotAvailableError` immediately: the
event trace is empty, so in particular no socket send happens. -/
theorem request_unknown_function_spec :
    ∀ net : ℕ → Outcome, ∀ functions : List String, ∀ f : String,
      ∀ sbr mt : ℕ, f ∉ functions → 1 ≤ mt →
      requestModel net true functions f sbr mt =
        ([], RequestResult.funcNotAvailable) := by
  intro net functions f sbr mt hf hmt
  obtain ⟨m, rfl⟩ : ∃ m, mt = m + 1 := ⟨mt - 1, by omega⟩
  have hav : decide (f ∈ functions) = false := by simp [hf]
  unfold requestModel
  rw [hav]
  unfold requestAux
  simp

/-- Witness for C9: calling `greet` on a service advertising only `heartbeat`
fails immediately with no send. -/
theorem request_unknown_function_spec_witness :
    ("greet" ∉ ["heartbeat"] ∧ 1 ≤ 3) ∧
    requestModel (fun _ => Outcome.timeout) true ["heartbeat"] "greet" 3 3 =
      ([], RequestResult.funcNotAvailable) :=
  ⟨⟨by decide, by norm_num⟩,
    request_unknown_function_spec (fun _ => Outcome.timeout) ["heartbeat"]
      "greet" 3 3 (by decide) (by norm_num)⟩

/-! ## C5: service discovery -/

lemma discoverConfigs_ne_sna (d : Directory) (name : String) :
    ∀ sample : List String,
      discoverConfigs d name sample ≠ .error .serviceNotAvailable := by
  intro sample
  induction sample with
  | nil => simp [discoverConfigs]
  | cons g gs ih =>
    unfold discoverConfigs
    cases hinst : d.instances name g with
    | none => simp
    | some c =>
      cases htc : transformConfig c with
      | none => simp [htc]
      | some cc =>
        simp only [htc]
        cases hrec : discoverConfigs d name gs with
        | ok l => simp [hrec, Except.map]
        | error e =>
          rw [hrec] at ih
          simp only [hrec, Except.map]
          intro he
          rw [he] at ih
          exact ih rfl

lemma discoverConfigs_ok (d : Directory) (name : String) :
    ∀ sample : List String,
      (∀ g ∈ sample, ∃ c, d.instances name g = some c ∧
        (transformConfig c).isSome) →
      ∃ cfgs : List ClientConfig, discoverConfigs d name sample = .ok cfgs ∧
        List.Forall₂ (fun g cc => ∃ c, d.instances name g = some c ∧
          transformConfig c = some cc) sample cfgs := by
  intro sample
  induction sample with
  | nil =>
    intro _
    exact ⟨[], rfl, List.Forall₂.nil⟩
  | cons g gs ih =>
    intro hin
    obtain ⟨c, hc, hsome⟩ := hin g (by simp)
    obtain ⟨cc, hcc⟩ := Option.isSome_iff_exists.mp hsome
    obtain ⟨cfgs, hok, hfa⟩ := ih (fun x hx => hin x (by simp [hx]))
    refine ⟨cc :: cfgs, ?_, List.Forall₂.cons ⟨c, hc, hcc⟩ hfa⟩
    simp only [discoverConfigs, hc, hcc, hok, Except.map]

/-- C5: `discover_service` raises `ServiceNotAvailableError` exactly when the
name is absent from the services set; on a well-formed registry entry it
returns `min num #instances` configs, one per sampled guid (sampling without
replacement, all instances when at most `num` exist), each being the stored
config with `socket_type` flipped to its client-side counterpart
(REP↔REQ, PUB↔SUB, PUSH↔PULL), `connect_method` flipped (bind↔connect), and
the JSON fields decoded with `functions` an unordered set. -/
theorem discover_service_spec :
    (∀ d : Directory, ∀ name : String, ∀ sample : List String,
      discoverService d name sample = .error .serviceNotAvailable ↔
        name ∉ d.services) ∧
    (∀ d : Directory, ∀ name : String, ∀ num : ℕ, ∀ sample : List String,
      name ∈ d.services → (d.guids name).Nonempty →
      (∀ g ∈ d.guids name, ∃ c, d.instances name g = some c ∧
        (transformConfig c).isSome) →
      validSample d name num sample →
      ∃ cfgs : List ClientConfig, discoverService d name sample = .ok cfgs ∧
        cfgs.length = min num (d.guids name).card ∧
        List.Forall₂ (fun g cc => ∃ c, d.instances name g = some c ∧
          transformConfig c = some cc) sample cfgs) ∧
    (clientSocketType "REP" = some "REQ" ∧ clientSocketType "REQ" = some "REP" ∧
      clientSocketType "PUB" = some "SUB" ∧ clientSocketType "SUB" = some "PUB" ∧
      clientSocketType "PUSH" = some "PULL" ∧
      clientSocketType "PULL" = some "PUSH") ∧
    (∀ c : StoredConfig, ∀ cc : ClientConfig, transformConfig c = some cc →
      clientSocketType c.socket_type = some cc.socket_type ∧
      cc.connect_method =
        (if c.connect_method = "bind" then "connect" else "bind") ∧
      cc.functions = c.functions.toFinset ∧
      cc.port = c.port ∧ cc.pid = c.pid ∧ cc.start_time = c.start_time ∧
      cc.alive = c.alive ∧ cc.name = c.name ∧ cc.env = c.env ∧
      cc.guid = c.guid ∧ cc.host = c.host) := by
  refine ⟨?_, ?_, ⟨rfl, rfl, rfl, rfl, rfl, rfl⟩, ?_⟩
  · intro d name sample
    constructor
    · intro h
      by_contra hmem
      rw [discoverService, if_pos hmem] at h
      by_cases hg : d.guids name = ∅
      · rw [if_pos hg] at h
        exact absurd h (by simp)
      · rw [if_neg hg] at h
        exact discoverConfigs_ne_sna d name sample h
    · intro h
      rw [discoverService, if_neg h]
  · intro d name num sample hmem hne hwf hvs
    obtain ⟨hnodup, hsub, hlt, hle⟩ := hvs
    obtain ⟨cfgs, hok, hfa⟩ := discoverConfigs_ok d name sample
      (fun g hg => hwf g (hsub g hg))
    refine ⟨cfgs, ?_, ?_, hfa⟩
    · rw [discoverService, if_pos hmem,
        if_neg (Finset.nonempty_iff_ne_empty.mp hne), hok]
    · have hlen := List.Forall₂.length_eq hfa
      rw [← hlen]
      rcases Nat.lt_or_ge num (d.guids name).card with hcase | hcase
      · rw [hlt hcase, Nat.min_eq_left (le_of_lt hcase)]
      · have hiff := hle hcase
        have htf : sample.toFinset = d.guids name := by
          ext g
          rw [List.mem_toFinset]
          exact hiff g
        have hcard : sample.toFinset.card = sample.length :=
          List.toFinset_card_of_nodup hnodup
        rw [← hcard, htf, Nat.min_eq_right hcase]
  · intro c cc h
    unfold transformConfig at h
    cases hst : clientSocketType c.socket_type with
    | none =>
      rw [hst] at h
      exact absurd h (by simp)
    | some st =>
      rw [hst] at h
      simp only [Option.map_some', Option.some.injEq] at h
      subst h
      exact ⟨rfl, rfl, rfl, rfl, rfl, rfl, rfl, rfl, rfl, rfl, rfl⟩

/-- Witness for C5: discovering `svc` in the one-instance directory with
`num = 1` and sample `["g1"]`. -/
theorem discover_service_spec_witness :
    ("svc" ∈ exampleDirectory.services ∧
      (exampleDirectory.guids "svc").Nonempty ∧
      (∀ g ∈ exampleDirectory.guids "svc", ∃ c,
        exampleDirectory.instances "svc" g = some c ∧
          (transformConfig c).isSome) ∧
      validSample exampleDirectory "svc" 1 ["g1"]) ∧
    (∃ cfgs : List ClientConfig,
      discoverService exampleDirectory "svc" ["g1"] = .ok cfgs ∧
      cfgs.length = min 1 (exampleDirectory.guids "svc").card ∧
      List.Forall₂ (fun g cc => ∃ c,
        exampleDirectory.instances "svc" g = some c ∧
          transformConfig c = some cc) ["g1"] cfgs) := by
  have hmem : "svc" ∈ exampleDirectory.services := by decide
  have hne : (exampleDirectory.guids "svc").Nonempty := ⟨"g1", by decide⟩
  have hwf : ∀ g ∈ exampleDirectory.guids "svc", ∃ c,
      exampleDirectory.instances "svc" g = some c ∧
        (transformConfig c).isSome := by
    intro g hg
    have hgset : exampleDirectory.guids "svc" = {"g1"} := by decide
    rw [hgset, Finset.mem_singleton] at hg
    subst hg
    exact ⟨exampleStored, rfl, by decide⟩
  have hvs : validSample exampleDirectory "svc" 1 ["g1"] := by
    refine ⟨by decide, by decide, by decide, ?_⟩
    intro _ g
    constructor
    · intro hg
      have : g = "g1" := by simpa using hg
      subst this
      decide
    · intro hg
      have hgset : exampleDirectory.guids "svc" = {"g1"} := by decide
      rw [hgset, Finset.mem_singleton] at hg
      subst hg
      simp
  exact ⟨⟨hmem, hne, hwf, hvs⟩,
    discover_service_spec.2.1 exampleDirectory "svc" 1 ["g1"] hmem hne hwf hvs⟩

/-! ## C6: register/deregister roundtrip -/

/-- C6 as stated is false on the code: `register_service` does not remove the
config's port from the host pool, but `deregister_service` adds it, so the
roundtrip grows the pool whenever the port was not already in it.  From the
empty directory, registering and deregistering `exampleStored` leaves port
9000 in the `h` pool. -/
theorem register_deregister_counterexample :
    (deregisterService (registerService emptyDirectory exampleStored)
        "svc" "g1" "h").ports "h" ≠ emptyDirectory.ports "h" := by
  decide

/-- C6 (amended): when the config's name and guid are not yet registered and —
the amendment — its port is already in the host pool, `register_service`
followed by `deregister_service` restores the directory exactly: services set,
guid sets, instance maps and port pools.  Without the port hypothesis the
roundtrip is the identity on everything except the host pool, which grows by
the config's port (`deregister` returns a port `register` never took). -/
theorem register_deregister_spec :
    ∀ (d : Directory) (c : StoredConfig),
      c.name ∉ d.services → d.guids c.name = ∅ →
      d.instances c.name c.guid = none → c.port ∈ d.ports c.host →
      ((deregisterService (registerService d c) c.name c.guid c.host).services
          = d.services ∧
        (∀ n, (deregisterService (registerService d c) c.name c.guid
          c.host).guids n = d.guids n) ∧
        (∀ n g, (deregisterService (registerService d c) c.name c.guid
          c.host).instances n g = d.instances n g) ∧
        (∀ h, (deregisterService (registerService d c) c.name c.guid
          c.host).ports h = d.ports h)) := by
  intro d c hname hguids hinst hport
  have hcard : ((registerService d c).guids c.name).card = 1 := by
    simp [registerService, hguids]
  have hinstD : (registerService d c).instances c.name c.guid = some c := by
    simp [registerService]
  unfold deregisterService
  rw [hcard, hinstD]
  simp only [Option.map_some', if_true]
  refine ⟨?_, ?_, ?_, ?_⟩
  · have hsc : (registerService d c).services = insert c.name d.services := rfl
    rw [hsc, Finset.card_insert_of_not_mem hname]
    by_cases hd : d.services.card = 0
    · have hde : d.services = ∅ := Finset.card_eq_zero.mp hd
      rw [if_pos (by omega), hde]
    · rw [if_neg (by omega)]
      exact Finset.erase_insert hname
  · intro n
    by_cases hn : n = c.name
    · subst hn
      rw [if_pos rfl]
      exact hguids.symm
    · rw [if_neg hn, if_neg hn]
      simp [registerService, hn]
  · intro n g
    by_cases hn : n = c.name
    · subst hn
      by_cases hg : g = c.guid
      · subst hg
        simp [hinst]
      · simp [registerService, hg]
    · simp [registerService, hn]
  · intro h
    have hpc : (registerService d c).ports = d.ports := rfl
    rw [hpc]
    by_cases hh : h = c.host
    · subst hh
      rw [if_pos rfl]
      exact Finset.insert_eq_self.mpr hport
    · rw [if_neg hh]

/-- Witness for C6: the roundtrip on a directory whose pool already holds
port 9000 restores both the services set and the `h` port pool. -/
theorem register_deregister_spec_witness :
    (exampleStored.name ∉ exampleDirectoryWithPort.services ∧
      exampleDirectoryWithPort.guids exampleStored.name = ∅ ∧
      exampleDirectoryWithPort.instances exampleStored.name
        exampleStored.guid = none ∧
      exampleStored.port ∈ exampleDirectoryWithPort.ports exampleStored.host) ∧
    (deregisterService (registerService exampleDirectoryWithPort exampleStored)
        exampleStored.name exampleStored.guid exampleStored.host).services =
      exampleDirectoryWithPort.services ∧
    (deregisterService (registerService exampleDirectoryWithPort exampleStored)
        exampleStored.name exampleStored.guid exampleStored.host).ports "h" =
      exampleDirectoryWithPort.ports "h" := by
  have h := register_deregister_spec exampleDirectoryWithPort exampleStored
    (by decide) (by decide) rfl (by decide)
  exact ⟨⟨by decide, by decide, rfl, by decide⟩, h.1, h.2.2.2 "h"⟩

/-! ## C7: resource pool release -/

/-- C7 as stated is false on the code: after a first `release()` has nulled
the handle's pool pointer, a second `release()` of a live (or probe-less)
resource calls `None.release(...)` and raises `AttributeError` instead of
returning without error. -/
theorem resource_release_counterexample :
    resourceRelease (none : Option Bool) true ([] : List ℕ) 0 =
      .ok (false, [0]) ∧
    resourceRelease (none : Option Bool) false [0] 0 = .error () :=
  ⟨rfl, rfl⟩

/-- C7 (amended): the first `release()` returns the resource to the pool
(unless its liveness probe fails) and nulls the handle's pool pointer, so the
pool can receive the resource at most once; but a second explicit `release()`
is a no-op only for a resource whose `good_to_use()` is false — for a live or
probe-less resource it raises `AttributeError` (`None.release`).  Only the
destructor path checks the pointer and is a true no-op. -/
theorem resource_release_spec :
    (∀ α : Type, ∀ pool : List α, ∀ r : α,
      resourceRelease none true pool r = .ok (false, pool ++ [r])) ∧
    (∀ α : Type, ∀ b : Bool, ∀ pool : List α, ∀ r : α,
      resourceRelease (some b) true pool r =
        .ok (false, if b then pool ++ [r] else pool)) ∧
    (∀ α : Type, ∀ gtu : Option Bool, ∀ pool : List α, ∀ r : α,
      resourceRelease gtu false pool r = .error () ∨
        resourceRelease gtu false pool r = .ok (false, pool)) ∧
    (∀ α : Type, ∀ gtu : Option Bool, ∀ pool : List α, ∀ r : α,
      resourceDel gtu false pool r = (false, pool)) := by
  refine ⟨fun α pool r => rfl, ?_, ?_, fun α gtu pool r => rfl⟩
  · intro α b pool r
    cases b <;> rfl
  · intro α gtu pool r
    cases gtu with
    | none => exact Or.inl rfl
    | some b =>
      cases b with
      | false => exact Or.inr rfl
      | true => exact Or.inl rfl

/-! ## C8: method-caller pool exhaustion -/

/-- C8 as stated is false on the code: with the pool's queue empty (the
1-resource pool whose resource is held by the in-flight call), `acquire`
raises `Queue.Empty` at the `empty()` check without ever reaching the timed
dequeue, so the call fails immediately — there is no 2-second blocking wait
before `ClientResourceNotAvailableError`. -/
theorem pool_exhaustion_counterexample :
    serviceMethodCall true (fun _ : ℕ => some true) ([] : List ℕ) =
      ([AcqEvent.emptyCheck],
        .error MethodCallError.clientResourceNotAvailable) ∧
    AcqEvent.blockingGet (some RESOURCE_ACQUIRING_TIMEOUT) ∉
      (serviceMethodCall true (fun _ : ℕ => some true) ([] : List ℕ)).1 := by
  refine ⟨rfl, by decide⟩

/-- C8 (amended): the acquisition timeout constant is 2 seconds and a failed
acquisition is surfaced as `ClientResourceNotAvailableError`; but when the
pool's queue is empty at acquisition time the error is raised immediately from
the `empty()` check — the only event is the check, the timed dequeue (the only
step that can block, up to the 2-second timeout) never runs.  Unmanaged
services fail with `UnknownServiceError` before any acquisition. -/
theorem pool_exhaustion_spec :
    RESOURCE_ACQUIRING_TIMEOUT = 2 ∧
    (∀ gtu : ℕ → Option Bool,
      serviceMethodCall true gtu ([] : List ℕ) =
        ([AcqEvent.emptyCheck],
          .error MethodCallError.clientResourceNotAvailable)) ∧
    (∀ gtu : ℕ → Option Bool, ∀ queue : List ℕ,
      (poolAcquire gtu (some RESOURCE_ACQUIRING_TIMEOUT) queue).2 =
        .error () →
      (serviceMethodCall true gtu queue).2 =
        .error MethodCallError.clientResourceNotAvailable) ∧
    (∀ gtu : ℕ → Option Bool, ∀ queue : List ℕ,
      serviceMethodCall false gtu queue =
        ([], .error MethodCallError.unknownService)) := by
  refine ⟨rfl, fun gtu => rfl, ?_, fun gtu queue => rfl⟩
  intro gtu queue h
  unfold serviceMethodCall
  simp only [if_true]
  rcases hpa : poolAcquire gtu (some RESOURCE_ACQUIRING_TIMEOUT) queue
    with ⟨evs, res⟩
  rw [hpa] at h
  cases res with
  | error e =>
    cases e
    rfl
  | ok v => simp at h

/-- Witness for C8: a queue holding one dead resource is drained and the call
fails with `ClientResourceNotAvailableError`. -/
theorem pool_exhaustion_spec_witness :
    (poolAcquire (fun _ : ℕ => some false) (some RESOURCE_ACQUIRING_TIMEOUT)
        [5]).2 = .error () ∧
    (serviceMethodCall true (fun _ : ℕ => some false) [5]).2 =
      .error MethodCallError.clientResourceNotAvailable :=
  ⟨rfl, pool_exhaustion_spec.2.2.1 (fun _ => some false) [5] rfl⟩

/-! ## C10: description handler and the healthcheck stats aliasing -/

/-- C10 is right about the intent and the code is wrong:
`HealthCheckHandler.handle` sets `d['stats'] = self._service.stats` and then
writes `cpu_percent`, `vms`, `rss`, `memory_percent` into that very dict, so
the OS-sample keys are permanently added to the service's own stats; a
subsequent `description` reply then does contain them, and the stats dict was
changed outside the dispatch-loop rolling statistics.  On a fresh service,
`description` alone is clean: no OS keys and no mutation. -/
theorem description_os_keys_code_bug :
    "cpu_percent" ∉ ((descriptionHandle exampleService).stats.map Prod.fst) ∧
    (descriptionHandle exampleService).stats = exampleService.stats ∧
    "cpu_percent" ∈
      ((descriptionHandle (healthcheckHandle exampleService exampleOsSample
        "2026-02-03 10:00:00" ["python"]).2).stats.map Prod.fst) ∧
    (healthcheckHandle exampleService exampleOsSample
      "2026-02-03 10:00:00" ["python"]).2.stats ≠ exampleService.stats := by
  refine ⟨by decide, rfl, by decide, by decide⟩
